import Mathlib

/-!
Shallow embedding of the Databricks tech-adapter provisioning core
(`src/tech-adapter/src`), with theorems checking the behavioural claims of
the specification against it.

Remote Databricks/Azure calls are modelled as explicit inputs (the lists or
outcomes the remote side returns) and as traces of the calls the code makes;
Python exceptions are modelled with `Except`.
-/

namespace DatabricksAdapter

/-- Equality is decidable for `Except` results with decidable components. -/
instance {ε α : Type} [DecidableEq ε] [DecidableEq α] : DecidableEq (Except ε α) := fun a b =>
  match a, b with
  | .ok x, .ok y =>
    if h : x = y then isTrue (by rw [h]) else isFalse (by intro hc; cases hc; exact h rfl)
  | .error x, .error y =>
    if h : x = y then isTrue (by rw [h]) else isFalse (by intro hc; cases hc; exact h rfl)
  | .ok _, .error _ => isFalse (by intro hc; cases hc)
  | .error _, .ok _ => isFalse (by intro hc; cases hc)

/-- Python `a.lower() == b.lower()` comparison used for environment names
(over the character lists, so it evaluates by kernel reduction). -/
def lowerEq (a b : String) : Bool := a.data.map Char.toLower == b.data.map Char.toLower

/-- Truthiness of an optional Python string (`None` and `""` are falsy). -/
def pyTruthy : Option String → Bool
  | none => false
  | some s => s ≠ ""

/-! ## Identity mapping (`src/service/principals_mapping/databricks_mapper.py`) -/

/-- Structured stand-in for `DatabricksMapperError`. -/
inductive MapperErr where
  | groupNotFound (name : String)
  | multipleGroups (name : String)
  | noDisplayName (name : String)
  | neitherUserNorGroup (ref : String)
  | apiFailure (name : String)
  deriving DecidableEq, Repr

/-- Splits a character list at its rightmost `'_'`, mirroring
`user.rfind("_")` followed by the two slices in `_get_and_map_user`. -/
def rsplitUnderscore : List Char → Option (List Char × List Char)
  | [] => none
  | c :: cs =>
    match rsplitUnderscore cs with
    | some (l, r) => some (c :: l, r)
    | none => if c = '_' then some ([], cs) else none

/-- `DatabricksMapper._get_and_map_user`: convert the underscore-delimited
local-part/domain encoding into an email address; a user with no underscore
is returned unchanged. -/
def getAndMapUser (user : String) : String :=
  match rsplitUnderscore user.data with
  | none => user
  | some (l, r) => String.mk (l ++ '@' :: r)

/-- The account-level group listing filtered by
`displayName eq '<name>'` (a case-insensitive remote filter). Groups are the
account's groups, each with an optional display name; a group with no
display name cannot match a display-name filter. -/
def groupFilter (groups : List (Option String)) (name : String) : List (Option String) :=
  groups.filter (fun g =>
    match g with
    | some d => lowerEq d name
    | none => false)

/-- `DatabricksMapper.retrieve_case_sensitive_group_display_name`. -/
def retrieveCaseSensitiveGroupDisplayName (groups : List (Option String)) (name : String) :
    Except MapperErr String :=
  match groupFilter groups name with
  | [] => .error (.groupNotFound name)
  | [g] =>
    match g with
    | some d => .ok d
    | none => .error (.noDisplayName name)
  | _ => .error (.multipleGroups name)

/-- `DatabricksMapper._map_subject`: dispatch on the `user:`/`group:` prefix. -/
def mapSubject (groups : List (Option String)) (ref : String) : Except MapperErr String :=
  if "user:".data.isPrefixOf ref.data then
    .ok (getAndMapUser (String.mk (ref.data.drop 5)))
  else if "group:".data.isPrefixOf ref.data then
    retrieveCaseSensitiveGroupDisplayName groups (String.mk (ref.data.drop 6))
  else
    .error (.neitherUserNorGroup ref)

/-- `DatabricksMapper.map`: every subject is mapped independently; a failure
is stored as the error value for that subject and never escapes the loop. -/
def dbMap (groups : List (Option String)) (subjects : List String) :
    List (String × Except MapperErr String) :=
  subjects.map (fun s => (s, mapSubject groups s))

/-! ## Create-or-update (`job_manager.py`, `workflow_manager.py`) -/

/-- A call made against the remote jobs API during create-or-update. -/
inductive CUAction where
  | create
  | update (id : Nat)
  deriving DecidableEq, Repr

/-- True when an `Except` value is an error. -/
def isError {ε α : Type} : Except ε α → Bool
  | .error _ => true
  | .ok _ => false

/-- `JobManager.create_or_update_job_with_new_cluster`, as a function of the
result of `list_jobs_with_given_name` (the optional `job_id` of each match)
and of the `job_id` the remote create responds with. Returns the trace of
remote create/update calls together with the result. -/
def createOrUpdateJob (existing : List (Option Nat)) (createResp : Option Nat) :
    List CUAction × Except String Nat :=
  match existing with
  | [] =>
    ([CUAction.create],
      match createResp with
      | some j => .ok j
      | none => .error "Received empty response from Databricks")
  | [jid?] =>
    match jid? with
    | none => ([], .error "Received empty response from Databricks")
    | some j => ([CUAction.update j], .ok j)
  | _ => ([], .error "The job name is not unique")

/-- `WorkflowManager.create_or_update_workflow`: identical decision structure,
guarded by the requirement that the workflow definition carries a name.
`update_workflow` re-checks the `job_id` copied from the single match before
calling the remote reset. -/
def createOrUpdateWorkflow (name? : Option String) (existing : List (Option Nat))
    (createResp : Option Nat) : List CUAction × Except String Nat :=
  if pyTruthy name? then
    match existing with
    | [] =>
      ([CUAction.create],
        match createResp with
        | some j => .ok j
        | none => .error "Received empty response from Databricks")
    | [jid?] =>
      match jid? with
      | none => ([], .error "Error, received empty workflow name. Name is a field required")
      | some j => ([CUAction.update j], .ok j)
    | _ => ([], .error "The workflow name is not unique")
  else ([], .error "Error, received empty workflow name. Name is a field required")

/-! ## Workflow data model (databricks.sdk `Job`/`JobSettings`/`Task`)

The SDK dataclasses are embedded as structures whose named fields are the
ones the adapter reads or writes; every remaining attribute is kept as a
generic `rest` attribute map so that Python's field-by-field equality is
preserved (two values are equal exactly when all attributes are). -/

/-- `databricks.sdk.service.jobs.JobRunAs`. -/
structure JobRunAs where
  service_principal_name : Option String := none
  user_name : Option String := none
  deriving DecidableEq, Repr

/-- `databricks.sdk.service.jobs.Format`. -/
inductive JobFormat where
  | multiTask
  | singleTask
  deriving DecidableEq, Repr

/-- `databricks.sdk.service.jobs.JobEmailNotifications`; `attrs = []` is the
freshly constructed default object. -/
structure JobEmailNotifications where
  attrs : List (String × String) := []
  deriving DecidableEq, Repr

/-- `databricks.sdk.service.jobs.WebhookNotifications`. -/
structure WebhookNotifications where
  attrs : List (String × String) := []
  deriving DecidableEq, Repr

/-- `databricks.sdk.service.jobs.PipelineTask`. -/
structure PipelineTask where
  pipeline_id : Option String := none
  full_refresh : Option Bool := none
  deriving DecidableEq, Repr

/-- `databricks.sdk.service.jobs.RunJobTask`. -/
structure RunJobTask where
  job_id : Option Int := none
  rest : List (String × String) := []
  deriving DecidableEq, Repr

/-- `databricks.sdk.service.jobs.NotebookTask`. -/
structure NotebookTask where
  notebook_path : Option String := none
  source : Option String := none
  base_parameters : List (String × String) := []
  warehouse_id : Option String := none
  deriving DecidableEq, Repr

/-- `databricks.sdk.service.jobs.Task`. -/
structure Task where
  task_key : Option String := none
  pipeline_task : Option PipelineTask := none
  run_job_task : Option RunJobTask := none
  notebook_task : Option NotebookTask := none
  existing_cluster_id : Option String := none
  rest : List (String × String) := []
  deriving DecidableEq, Repr

/-- `databricks.sdk.service.jobs.JobSettings`. -/
structure JobSettings where
  name : Option String := none
  tasks : Option (List Task) := none
  email_notifications : Option JobEmailNotifications := none
  webhook_notifications : Option WebhookNotifications := none
  format : Option JobFormat := none
  timeout_seconds : Option Nat := none
  max_concurrent_runs : Option Nat := none
  run_as : Option JobRunAs := none
  rest : List (String × String) := []
  deriving DecidableEq, Repr

/-- `databricks.sdk.service.jobs.Job`. -/
structure Job where
  job_id : Option Nat := none
  created_time : Option Int := none
  creator_user_name : Option String := none
  run_as_user_name : Option String := none
  settings : Option JobSettings := none
  rest : List (String × String) := []
  deriving DecidableEq, Repr

/-! ## Workflow drift validation (`src/service/validation/workflow_validation_service.py`) -/

/-- The distinct failure modes of `validate_workflow_for_provisioning`. -/
inductive ValidationErr where
  | emptyName
  | notUnique
  | emptyResponse
  | differsInDev
  | emptyOverNonEmpty
  deriving DecidableEq, Repr

/-- The in-place alignment of the request workflow with the platform-assigned
fields of the single deployed workflow (lines 86-90 of the validation
service); the assignment mutates the component's workflow object. -/
def normalizeRequest (request existing : Job) : Job :=
  { request with
    created_time := existing.created_time
    creator_user_name := existing.creator_user_name
    job_id := existing.job_id
    run_as_user_name := existing.run_as_user_name }

/-- The `empty_workflow_to_compare` skeleton built by the validation service:
a default `Job` carrying only the aligned platform fields, the workflow name,
fresh notification objects, `MULTI_TASK` format, `timeout_seconds=0`,
`max_concurrent_runs=1` and the deployed workflow's `run_as`. -/
def emptyWorkflowToCompare (request : Job) (workflowName : String)
    (existingRunAs : Option JobRunAs) : Job :=
  { created_time := request.created_time
    creator_user_name := request.creator_user_name
    job_id := request.job_id
    run_as_user_name := request.run_as_user_name
    settings := some
      { name := some workflowName
        email_notifications := some {}
        webhook_notifications := some {}
        format := some .multiTask
        timeout_seconds := some 0
        max_concurrent_runs := some 1
        run_as := existingRunAs } }

/-- `validate_workflow_for_provisioning`, as a function of the request
workflow, the component's override flag, the environment names, the job ids
returned by `list_jobs_with_given_name`, and the full deployed workflow the
remote `jobs.get` returns when exactly one match exists. The second
component is the component's workflow object after the call (the source
mutates it in place when aligning platform fields). -/
def validateWorkflowForProvisioning (request : Job) (override : Bool)
    (environment devEnvName : String) (workflowList : List (Option Nat))
    (existing : Job) : Except ValidationErr Unit × Job :=
  match request.settings with
  | none => (.error .emptyName, request)
  | some s =>
    match s.name with
    | none => (.error .emptyName, request)
    | some wname =>
      if wname = "" then (.error .emptyName, request)
      else
        match workflowList with
        | [] => (.ok (), request)
        | [jid?] =>
          match jid? with
          | none => (.error .emptyResponse, request)
          | some _ =>
            let request' := normalizeRequest request existing
            if existing = request' then (.ok (), request')
            else if override then (.ok (), request')
            else if lowerEq environment devEnvName then (.error .differsInDev, request')
            else if request' = emptyWorkflowToCompare request' wname
                (existing.settings.bind (fun st => st.run_as)) then
              (.error .emptyOverNonEmpty, request')
            else (.ok (), request')
        | _ => (.error .notUnique, request)

/-! ## Workflow reconciler (`src/service/clients/databricks/workflow_manager.py`) -/

/-- `WorkflowTasksInfo` (`databricks_workflow_specific.py`): every field is
optional in the pydantic model. -/
structure WorkflowTasksInfo where
  task_key : Option String := none
  referenced_task_type : Option String := none
  referenced_task_id : Option String := none
  referenced_task_name : Option String := none
  referenced_cluster_name : Option String := none
  referenced_cluster_id : Option String := none
  deriving DecidableEq, Repr

/-- The by-name lookups `create_task_from_workflow_task_info` performs in the
target workspace: `DLTManager.retrieve_pipeline_id_from_name`,
`JobManager.retrieve_job_id_from_name` (whose string result the caller parses
back with `int`), `WorkspaceManager.get_sql_warehouse_id_from_name` and
`WorkspaceManager.get_compute_cluster_id_from_name`. Each fails unless the
name resolves uniquely; the outcome for each name is an input here. -/
structure ResolveEnv where
  pipelineIdFromName : String → Except String String
  jobIdFromName : String → Except String Int
  warehouseIdFromName : String → Except String String
  clusterIdFromName : String → Except String String

/-- `WorkflowManager.create_task_from_workflow_task_info`: substitute the
entity id freshly resolved by name into the task field selected by the
info's `referenced_task_type`; a task whose type is not one of the four
managed kinds is returned unchanged. Accessing a missing sub-object (for
example `task.pipeline_task` being absent) is a Python `AttributeError`,
modelled as an error. -/
def createTaskFromWorkflowTaskInfo (env : ResolveEnv) (wfInfo : WorkflowTasksInfo)
    (task : Task) : Except String Task :=
  match wfInfo.referenced_task_type with
  | some "pipeline" =>
    if pyTruthy wfInfo.referenced_task_name then
      match wfInfo.referenced_task_name with
      | some nm =>
        match env.pipelineIdFromName nm with
        | .error e => .error e
        | .ok newId =>
          match task.pipeline_task with
          | none => .error "AttributeError: pipeline_task is None"
          | some pt => .ok { task with pipeline_task := some { pt with pipeline_id := some newId } }
      | none => .error "Error, cannot construct task, received empty task name"
    else .error "Error, cannot construct task, received empty task name"
  | some "job" =>
    if pyTruthy wfInfo.referenced_task_name then
      match wfInfo.referenced_task_name with
      | some nm =>
        match env.jobIdFromName nm with
        | .error e => .error e
        | .ok newId =>
          match task.run_job_task with
          | none => .error "AttributeError: run_job_task is None"
          | some rj => .ok { task with run_job_task := some { rj with job_id := some newId } }
      | none => .error "Error, cannot construct task, received empty task name"
    else .error "Error, cannot construct task, received empty task name"
  | some "notebook_warehouse" =>
    if pyTruthy wfInfo.referenced_cluster_name then
      match wfInfo.referenced_cluster_name with
      | some nm =>
        match env.warehouseIdFromName nm with
        | .error e => .error e
        | .ok newId =>
          match task.notebook_task with
          | none => .error "AttributeError: notebook_task is None"
          | some nt => .ok { task with notebook_task := some { nt with warehouse_id := some newId } }
      | none => .error "Error, cannot construct task, received empty cluster name"
    else .error "Error, cannot construct task, received empty cluster name"
  | some "notebook_compute" =>
    if pyTruthy wfInfo.referenced_cluster_name then
      match wfInfo.referenced_cluster_name with
      | some nm =>
        match env.clusterIdFromName nm with
        | .error e => .error e
        | .ok newId => .ok { task with existing_cluster_id := some newId }
      | none => .error "Error, cannot construct task, received empty cluster name"
    else .error "Error, cannot construct task, received empty cluster name"
  | _ => .ok task

/-- The dict `{info.task_key: info for info in workflow_info_list}`: lookup
by key where a later list entry overwrites an earlier one with the same key. -/
def infoLookup (infos : List WorkflowTasksInfo) (k : Option String) :
    Option WorkflowTasksInfo :=
  infos.reverse.find? (fun i => i.task_key = k)

/-- One step of the task loop in `reconstruct_job_with_correct_ids`: a task
whose key is in the info map is updated, any other task is passed through. -/
def applyInfo (env : ResolveEnv) (infos : List WorkflowTasksInfo) (t : Task) :
    Except String Task :=
  match infoLookup infos t.task_key with
  | some info => createTaskFromWorkflowTaskInfo env info t
  | none => .ok t

/-- The task loop of `reconstruct_job_with_correct_ids`, in list order; the
first failure aborts the pass. -/
def updateTasks (env : ResolveEnv) (infos : List WorkflowTasksInfo) :
    List Task → Except String (List Task)
  | [] => .ok []
  | t :: ts =>
    match applyInfo env infos t with
    | .error e => .error e
    | .ok t' =>
      match updateTasks env infos ts with
      | .error e => .error e
      | .ok ts' => .ok (t' :: ts')

/-- `WorkflowManager.reconstruct_job_with_correct_ids`: a job with no
settings or no (or empty) task list is returned unchanged; otherwise every
task is passed through the info map and the settings' task list replaced. -/
def reconstructJobWithCorrectIds (env : ResolveEnv) (original : Job)
    (infos : List WorkflowTasksInfo) : Except String Job :=
  match original.settings with
  | none => .ok original
  | some s =>
    match s.tasks with
    | none => .ok original
    | some tasks =>
      if tasks = [] then .ok original
      else
        match updateTasks env infos tasks with
        | .error e => .error e
        | .ok tasks' => .ok { original with settings := some { s with tasks := some tasks' } }

/-! ## Workflow provisioning (`src/service/provision/handler/workflow_workload_handler.py`) -/

/-- `databricks.sdk.service.iam.ServicePrincipal`, as used by
`WorkspaceManager.get_service_principal_from_name`. -/
structure ServicePrincipal where
  display_name : Option String := none
  application_id : Option String := none
  deriving DecidableEq, Repr

/-- Python `str.isspace()` (ASCII whitespace). -/
def pyIsSpace (s : String) : Bool := s.data ≠ [] && s.data.all Char.isWhitespace

/-- `WorkflowWorkloadHandler._provision_workflow_internal`, up to (and
returning) the workflow definition handed to
`WorkflowManager.create_or_update_workflow`: reconstruct the captured
definition with target-workspace ids, then — only when the component's
`runAsPrincipalName` is set and not whitespace — force `settings.run_as` to
the service principal resolved by that name. `spLookup` is the outcome of
`get_service_principal_from_name` (which returns `None` when no principal of
that name exists). -/
def provisionWorkflowInternalJob (env : ResolveEnv)
    (spLookup : String → Except String (Option ServicePrincipal))
    (workflow : Job) (infos : List WorkflowTasksInfo)
    (runAsPrincipalName : Option String) : Except String Job :=
  match reconstructJobWithCorrectIds env workflow infos with
  | .error e => .error e
  | .ok updated =>
    match runAsPrincipalName with
    | some nm =>
      if nm ≠ "" && !pyIsSpace nm then
        match spLookup nm with
        | .error e => .error e
        | .ok none =>
          .error "Run As Service Principal doesn't exist on target workspace"
        | .ok (some sp) =>
          match updated.settings with
          | none => .error "AttributeError: settings is None"
          | some st =>
            .ok { updated with settings := some { st with
              run_as := some { service_principal_name := sp.application_id, user_name := none } } }
      else .ok updated
    | none => .ok updated

/-! ## Bulk unprovision (`job_workload_handler.py`, `workflow_workload_handler.py`) -/

/-- The deletion pass shared by both unprovision handlers: every listed job
that carries an id is attempted (in order) regardless of earlier failures;
the pass returns the ids attempted and the causes of the failures. -/
def attemptDeletes (delJob : Nat → Except String Unit) :
    List (Option Nat) → List Nat × List String
  | [] => ([], [])
  | none :: rest => attemptDeletes delJob rest
  | some j :: rest =>
    let (att, errs) := attemptDeletes delJob rest
    match delJob j with
    | .ok _ => (j :: att, errs)
    | .error e => (j :: att, e :: errs)

/-- `JobWorkloadHandler.unprovision_workload`, as a function of the listing
outcome, the per-job deletion outcomes, the `remove_data` flag and the repo
deletion outcome. Returns the ids whose deletion was attempted and the final
result; a listing failure is collected (the loop then runs over no jobs) and
deletion failures are aggregated into one error after the full pass. -/
def jobUnprovisionWorkload (listing : Except String (List (Option Nat)))
    (delJob : Nat → Except String Unit) (removeData : Bool)
    (repoResult : Except String Unit) : List Nat × Except (List String) Unit :=
  match listing with
  | .error e => ([], .error [e])
  | .ok jobs =>
    let (att, errs) := attemptDeletes delJob jobs
    if errs = [] then
      if removeData then
        match repoResult with
        | .ok _ => (att, .ok ())
        | .error e => (att, .error [e])
      else (att, .ok ())
    else (att, .error errs)

/-- `WorkflowWorkloadHandler.unprovision_workload`: same deletion pass,
guarded by a non-empty `workflow_tasks_info` list and a workflow name; a
listing failure here escapes the surrounding `try` before any deletion. -/
def workflowUnprovisionWorkload (tasksInfo : List WorkflowTasksInfo)
    (name? : Option String) (listing : Except String (List (Option Nat)))
    (delJob : Nat → Except String Unit) (removeData : Bool)
    (repoResult : Except String Unit) : List Nat × Except (List String) Unit :=
  if tasksInfo = [] then ([], .error ["Error, received empty specific.workflowTasksInfoList"])
  else if !pyTruthy name? then
    ([], .error ["Error, received empty specific.workflow.settings.name"])
  else
    match listing with
    | .error e => ([], .error [e])
    | .ok jobs =>
      let (att, errs) := attemptDeletes delJob jobs
      if errs = [] then
        if removeData then
          match repoResult with
          | .ok _ => (att, .ok ())
          | .error e => (att, .error [e])
        else (att, .ok ())
      else (att, .error errs)

/-! ## Workspace resolution (`src/service/clients/azure/azure_workspace_handler.py`) -/

/-- `azure.mgmt.databricks.models.ProvisioningState`. -/
inductive ProvisioningState where
  | accepted
  | running
  | ready
  | creating
  | created
  | deleting
  | deleted
  | canceled
  | failed
  | succeeded
  | updating
  deriving DecidableEq, Repr

/-- `DatabricksWorkspaceInfo` (`databricks_workspace_info.py`). -/
structure DatabricksWorkspaceInfo where
  name : String
  id : String
  databricks_host : String
  azure_resource_id : Option String
  azure_resource_url : String
  provisioning_state : ProvisioningState
  is_managed : Bool
  deriving DecidableEq, Repr

/-- `DatabricksWorkspaceInfo.build_unmanaged`: the name defaults to the host
and the workspace is not managed. -/
def buildUnmanaged (databricks_host id azure_resource_url : String)
    (provisioning_state : ProvisioningState) : DatabricksWorkspaceInfo :=
  { name := databricks_host
    id := id
    databricks_host := databricks_host
    azure_resource_id := none
    azure_resource_url := azure_resource_url
    provisioning_state := provisioning_state
    is_managed := false }

/-- `AzureWorkspaceHandler._DATABRICKS_URL_PATTERN` applied with `re.match`:
an optional `https://` scheme, then `adb-`, a captured run of digits, `.`,
a run of digits and the literal `.azuredatabricks.net` (anything may follow,
as `re.match` only anchors the start). Returns the captured workspace id. -/
def matchDatabricksUrl (s : String) : Option String :=
  let cs := s.data
  let cs := if cs.take 8 = "https://".data then cs.drop 8 else cs
  if cs.take 4 = "adb-".data then
    let afterAdb := cs.drop 4
    let ws := afterAdb.takeWhile Char.isDigit
    if ws = [] then none
    else
      match afterAdb.dropWhile Char.isDigit with
      | '.' :: r =>
        let d2 := r.takeWhile Char.isDigit
        if d2 = [] then none
        else
          let tail := r.dropWhile Char.isDigit
          if tail.take 20 = ".azuredatabricks.net".data then some (String.mk ws)
          else none
      | _ => none
  else none

/-- `AzureWorkspaceHandler.get_workspace_info_by_name`: a reference matching
the URL pattern becomes an unmanaged workspace synthesized from the URL with
no remote call; otherwise the reference is a logical name, requiring the
Azure permissions configuration and a remote Azure lookup (`remoteLookup`,
returning `none` when absent). The boolean records whether the remote lookup
was performed. -/
def getWorkspaceInfoByName (azurePermsConfigured : Bool)
    (remoteLookup : String → Option DatabricksWorkspaceInfo)
    (workspaceIdentifier : String) :
    Except String (Option DatabricksWorkspaceInfo) × Bool :=
  match matchDatabricksUrl workspaceIdentifier with
  | some wid =>
    (.ok (some (buildUnmanaged workspaceIdentifier wid workspaceIdentifier .succeeded)), false)
  | none =>
    if azurePermsConfigured then (.ok (remoteLookup workspaceIdentifier), true)
    else (.error "azure.permissions is not configured on Tech Adapter", false)

/-- Remote Azure operations `provision_workspace` may perform. -/
inductive WorkspaceAction where
  | remoteLookup
  | createWorkspace
  deriving DecidableEq, Repr

/-- `AzureWorkspaceHandler.provision_workspace`: resolve the reference; an
existing unmanaged workspace is returned as-is with no further side effect;
otherwise the managed path requires the permissions configuration, creates
the workspace if absent (`createIfNotExists`) and manages the baseline Azure
role assignments (`permissionsResult` summarizes that step's outcome).
Returns the result together with the trace of remote workspace operations. -/
def provisionWorkspace (azurePermsConfigured : Bool)
    (remoteLookup : String → Option DatabricksWorkspaceInfo)
    (createIfNotExists : String → Except String DatabricksWorkspaceInfo)
    (permissionsResult : Except String Unit) (workspaceIdentifier : String) :
    Except String DatabricksWorkspaceInfo × List WorkspaceAction :=
  match getWorkspaceInfoByName azurePermsConfigured remoteLookup workspaceIdentifier with
  | (.error e, didLookup) => (.error e, if didLookup then [.remoteLookup] else [])
  | (.ok info?, didLookup) =>
    let acts := if didLookup then [WorkspaceAction.remoteLookup] else []
    match info? with
    | some info =>
      if !info.is_managed then (.ok info, acts)
      else
        if !azurePermsConfigured then (.error "azure.permissions is not configured", acts)
        else
          match createIfNotExists workspaceIdentifier with
          | .error e => (.error e, acts ++ [.createWorkspace])
          | .ok wi =>
            match permissionsResult with
            | .error e => (.error e, acts ++ [.createWorkspace])
            | .ok _ => (.ok wi, acts ++ [.createWorkspace])
    | none =>
      if !azurePermsConfigured then (.error "azure.permissions is not configured", acts)
      else
        match createIfNotExists workspaceIdentifier with
        | .error e => (.error e, acts ++ [.createWorkspace])
        | .ok wi =>
          match permissionsResult with
          | .error e => (.error e, acts ++ [.createWorkspace])
          | .ok _ => (.ok wi, acts ++ [.createWorkspace])

/-! ## Task repository and status endpoint (`task_repository.py`, `provision_service.py`) -/

/-- `Status1` of the API models. -/
inductive Status1 where
  | running
  | completed
  | failed
  deriving DecidableEq, Repr

/-- `ProvisioningStatus` as stored in the task map. -/
structure ProvisioningStatus where
  status : Status1
  result : String
  deriving DecidableEq, Repr

/-- Fuel-driven worker for `removeAllSub`; the fuel is an upper bound on the
number of characters still to scan, so the `0` case is unreachable when the
fuel starts at the input length. -/
def removeAllSubAux (pat : List Char) : Nat → List Char → List Char
  | _, [] => []
  | 0, cs => cs
  | fuel + 1, c :: cs =>
    if pat ≠ [] ∧ pat.isPrefixOf (c :: cs) then
      removeAllSubAux pat fuel ((c :: cs).drop pat.length)
    else c :: removeAllSubAux pat fuel cs

/-- Removes every occurrence of `pat` (non-empty) from a character list,
scanning left to right, mirroring Python `str.replace(pat, "")`. -/
def removeAllSub (pat : List Char) (s : List Char) : List Char :=
  removeAllSubAux pat s.length s

/-- Whether a character is a hexadecimal digit. -/
def isHexChar (c : Char) : Bool :=
  c.isDigit || ('a' ≤ c && c ≤ 'f') || ('A' ≤ c && c ≤ 'F')

/-- The numeric value of one hexadecimal digit. -/
def hexVal (c : Char) : Nat :=
  if c.isDigit then c.toNat - '0'.toNat
  else if 'a' ≤ c && c ≤ 'f' then c.toNat - 'a'.toNat + 10
  else c.toNat - 'A'.toNat + 10

/-- `uuid.UUID(<id>)` on a string argument, as the stdlib performs it:
remove every `urn:` and `uuid:` substring, strip surrounding braces, remove
dashes, then require exactly 32 hexadecimal digits. Returns the 128-bit
value; `none` is the `ValueError` the constructor raises otherwise. (The
stdlib's final `int(hex, 16)` also tolerates some exotic spellings such as an
embedded `0x` prefix; those never arise from well-formed ids and are treated
as malformed here.) -/
def parseUUID (s : String) : Option Nat :=
  let cs := removeAllSub "uuid:".data (removeAllSub "urn:".data s.data)
  let cs := cs.dropWhile (fun c => c = '{' ∨ c = '}')
  let cs := (cs.reverse.dropWhile (fun c => c = '{' ∨ c = '}')).reverse
  let cs := cs.filter (fun c => c ≠ '-')
  if cs.length = 32 ∧ cs.all isHexChar then
    some (cs.foldl (fun acc c => acc * 16 + hexVal c) 0)
  else none

/-- `MemoryTaskRepository.get_task`: the id string is parsed with
`uuid.UUID` (raising `ValueError` on a malformed id) and then looked up by
exact match; an absent task yields `None`. -/
def getTask (statusMap : List (Nat × ProvisioningStatus)) (id : String) :
    Except String (Option ProvisioningStatus) :=
  match parseUUID id with
  | none => .error "ValueError: badly formed hexadecimal UUID string"
  | some u =>
    .ok ((statusMap.find? (fun e => e.1 = u)).map (fun e => e.2))

/-- The two answers `ProvisionService.get_provisioning_status` returns. -/
inductive StatusResponse where
  | found (s : ProvisioningStatus)
  | notFound (error : String)
  deriving DecidableEq, Repr

/-- `ProvisionService.get_provisioning_status`: a stored task is returned, a
missing one becomes a `SystemErr` "not found" response; an exception from
`get_task` propagates. -/
def getProvisioningStatus (statusMap : List (Nat × ProvisioningStatus)) (id : String) :
    Except String StatusResponse :=
  match getTask statusMap id with
  | .error e => .error e
  | .ok (some s) => .ok (.found s)
  | .ok none => .ok (.notFound ("Cannot find Provisioning Status for id '" ++ id ++ "'"))

/-! ## ACL reconciliation (`output_port_handler.py`, `unity_catalog_manager.py`) -/

/-- A Unity Catalog privilege, as used by the ACL update. -/
inductive Privilege where
  | select
  | use_catalog
  | use_schema
  deriving DecidableEq, Repr

/-- A securable object the update touches. -/
inductive Securable where
  | catalog (c : String)
  | schema (c s : String)
  | view (c s v : String)
  deriving DecidableEq, Repr

/-- A remote permission change attempted by the ACL update. -/
inductive AclAction where
  | revoke (principal : String) (p : Privilege) (obj : Securable)
  | grant (principal : String) (p : Privilege) (obj : Securable)
  deriving DecidableEq, Repr

/-- Outcomes of the remote permission calls: `revokeResult p` is the outcome
of revoking SELECT from principal `p` on the view, `grantResult p priv obj`
of granting `priv` to `p` on `obj`. -/
structure AclRemote where
  revokeResult : String → Except String Unit
  grantResult : String → Privilege → Securable → Except String Unit

/-- Keep the first occurrence of every element (the insertion order a Python
dict built over the mapped subjects preserves). -/
def pyDedup : List String → List String
  | [] => []
  | x :: xs => x :: (pyDedup xs).filter (fun y => y ≠ x)

/-- `OutputPortHandler.map_principals`: prefix the dev group with `group:`
when missing, map both subjects through the Databricks mapper, and fail
unless both resolved. -/
def mapPrincipals (groups : List (Option String)) (owner devGroup : String) :
    Except String (String × String) :=
  let devGroup' := if "group:".data.isPrefixOf devGroup.data then devGroup
    else "group:" ++ devGroup
  match mapSubject groups owner, mapSubject groups devGroup' with
  | .ok o, .ok d => .ok (o, d)
  | _, _ => .error "Failed to map principal"

/-- The revoke loop of `OutputPortHandler.update_acl` over the view's current
permissions: a permission with no principal aborts the loop with an error;
in the development environment the mapped owner and dev group are skipped;
any other principal outside the desired set is revoked, failures being
collected without stopping. Returns the attempted actions, the collected
failure causes and the abort error if any. -/
def revokeLoop (devMode : Bool) (ownerMapped devGroupMapped : String)
    (desired : List String) (remote : AclRemote) (viewObj : Securable) :
    List (Option String) → List AclAction × List String × Option String
  | [] => ([], [], none)
  | none :: _ => ([], [], some "Received empty response from Databricks")
  | some p :: rest =>
    if devMode ∧ (p = ownerMapped ∨ p = devGroupMapped) then
      revokeLoop devMode ownerMapped devGroupMapped desired remote viewObj rest
    else if p ∉ desired then
      let (acts, errs, fatal) :=
        revokeLoop devMode ownerMapped devGroupMapped desired remote viewObj rest
      match remote.revokeResult p with
      | .ok _ => (.revoke p .select viewObj :: acts, errs, fatal)
      | .error e => (.revoke p .select viewObj :: acts, e :: errs, fatal)
    else
      revokeLoop devMode ownerMapped devGroupMapped desired remote viewObj rest

/-- `UnityCatalogManager.assign_databricks_permission_to_table_or_view` for
one principal: grant the view privilege, then USE_CATALOG on the catalog and
USE_SCHEMA on the schema; the first failing call aborts the remaining ones
for this principal. Returns the attempted grants and the outcome. -/
def assignPermissionToView (remote : AclRemote) (catalogName schemaName viewName : String)
    (principal : String) (privilege : Privilege) : List AclAction × Option String :=
  let viewObj := Securable.view catalogName schemaName viewName
  match remote.grantResult principal privilege viewObj with
  | .error e => ([.grant principal privilege viewObj], some e)
  | .ok _ =>
    match remote.grantResult principal .use_catalog (.catalog catalogName) with
    | .error e =>
      ([.grant principal privilege viewObj,
        .grant principal .use_catalog (.catalog catalogName)], some e)
    | .ok _ =>
      match remote.grantResult principal .use_schema (.schema catalogName schemaName) with
      | .error e =>
        ([.grant principal privilege viewObj,
          .grant principal .use_catalog (.catalog catalogName),
          .grant principal .use_schema (.schema catalogName schemaName)], some e)
      | .ok _ =>
        ([.grant principal privilege viewObj,
          .grant principal .use_catalog (.catalog catalogName),
          .grant principal .use_schema (.schema catalogName schemaName)], none)

/-- The grant loop of `update_acl`: every desired principal is attempted,
failures collected; each principal receives SELECT on the view plus the
cascading USE_CATALOG/USE_SCHEMA grants. -/
def grantLoop (remote : AclRemote) (catalogName schemaName viewName : String) :
    List String → List AclAction × List String
  | [] => ([], [])
  | v :: rest =>
    let (acts, err?) := assignPermissionToView remote catalogName schemaName viewName v .select
    let (acts', errs) := grantLoop remote catalogName schemaName viewName rest
    (acts ++ acts', (match err? with | some e => [e] | none => []) ++ errs)

/-- `OutputPortHandler.update_acl`: map the owner/dev-group pair and every
requested identity (any mapping failure aborts with an aggregated error
before touching permissions), then revoke the extra principals — preserving
the owner and dev group when the data product's environment equals the
configured development environment — and finally grant the view privilege
set to every desired principal. Returns the trace of attempted permission
changes and the outcome. -/
def updateAcl (groups : List (Option String)) (environment devEnvName : String)
    (owner devGroup : String) (witboostIdentities : List String)
    (currentPermissions : List (Option String)) (remote : AclRemote)
    (catalogName schemaName viewName : String) :
    List AclAction × Except (List String) Unit :=
  match mapPrincipals groups owner devGroup with
  | .error e => ([], .error [e])
  | .ok (ownerMapped, devGroupMapped) =>
    let subjects := pyDedup witboostIdentities
    if subjects.all (fun w => !isError (mapSubject groups w)) then
      let desired := subjects.filterMap (fun w => (mapSubject groups w).toOption)
      let devMode := lowerEq environment devEnvName
      let viewObj := Securable.view catalogName schemaName viewName
      let (racts, rerrs, fatal) :=
        revokeLoop devMode ownerMapped devGroupMapped desired remote viewObj currentPermissions
      match fatal with
      | some e => (racts, .error [e])
      | none =>
        if rerrs = [] then
          let (gacts, gerrs) := grantLoop remote catalogName schemaName viewName desired
          if gerrs = [] then (racts ++ gacts, .ok ())
          else (racts ++ gacts, .error gerrs)
        else (racts, .error rerrs)
    else
      ([], .error ((subjects.map (fun w => mapSubject groups w)).filterMap
        (fun r => match r with | .error _ => some "Failed to map principal" | .ok _ => none)))

/-- The per-task substitution property claimed for workflow redeploy: a task
whose key has no `WorkflowTasksInfo` entry is returned unchanged, and a task
whose entry has one of the four managed types has exactly its referenced id
replaced by the id freshly resolved by name in the target workspace. -/
def SubstitutedTask (env : ResolveEnv) (infos : List WorkflowTasksInfo)
    (t t' : Task) : Prop :=
  (infoLookup infos t.task_key = none → t' = t) ∧
  (∀ info, infoLookup infos t.task_key = some info →
    ((info.referenced_task_type = some "pipeline" →
        ∀ nm pt newId, info.referenced_task_name = some nm →
          t.pipeline_task = some pt → env.pipelineIdFromName nm = .ok newId →
          t' = { t with pipeline_task := some { pt with pipeline_id := some newId } }) ∧
     (info.referenced_task_type = some "job" →
        ∀ nm rj newId, info.referenced_task_name = some nm →
          t.run_job_task = some rj → env.jobIdFromName nm = .ok newId →
          t' = { t with run_job_task := some { rj with job_id := some newId } }) ∧
     (info.referenced_task_type = some "notebook_warehouse" →
        ∀ nm nt newId, info.referenced_cluster_name = some nm →
          t.notebook_task = some nt → env.warehouseIdFromName nm = .ok newId →
          t' = { t with notebook_task := some { nt with warehouse_id := some newId } }) ∧
     (info.referenced_task_type = some "notebook_compute" →
        ∀ nm newId, info.referenced_cluster_name = some nm →
          env.clusterIdFromName nm = .ok newId →
          t' = { t with existing_cluster_id := some newId })))

/-! ## Concrete inputs used by witnesses and counterexamples -/

/-- Settings of a request equal to the default empty workflow skeleton. -/
def emptyRequestSettings : JobSettings :=
  { name := some "wf"
    email_notifications := some {}
    webhook_notifications := some {}
    format := some .multiTask
    timeout_seconds := some 0
    max_concurrent_runs := some 1 }

/-- A request workflow equal to the default empty skeleton. -/
def emptyRequestWorkflow : Job := { settings := some emptyRequestSettings }

/-- A deployed workflow with one real task (hence non-empty). -/
def deployedWorkflow : Job :=
  { created_time := some 5
    creator_user_name := some "creator"
    job_id := some 1
    run_as_user_name := none
    settings := some { emptyRequestSettings with tasks := some [{ task_key := some "t1" }] } }

/-- A resolver environment in which no name resolves. -/
def failingResolveEnv : ResolveEnv :=
  { pipelineIdFromName := fun _ => .error "no pipeline"
    jobIdFromName := fun _ => .error "no job"
    warehouseIdFromName := fun _ => .error "no warehouse"
    clusterIdFromName := fun _ => .error "no cluster" }

/-- A captured workflow whose definition carries a `run_as` identity. -/
def capturedWorkflow : Job :=
  { settings := some { name := some "wf", run_as := some { user_name := some "captured@example.com" } } }

/-- `capturedWorkflow` after the run-as principal has been forced to the
resolved application id. -/
def forcedRunAsWorkflow : Job :=
  { settings := some
      { name := some "wf"
        run_as := some { service_principal_name := some "app-123", user_name := none } } }

/-- A resolver environment in which pipeline `pl` resolves to `pid-2`. -/
def exampleResolveEnv : ResolveEnv :=
  { pipelineIdFromName := fun nm => if nm = "pl" then .ok "pid-2" else .error "no pipeline"
    jobIdFromName := fun _ => .error "no job"
    warehouseIdFromName := fun _ => .error "no warehouse"
    clusterIdFromName := fun _ => .error "no cluster" }

/-- A captured task referencing a pipeline by a stale id. -/
def pipelineTaskExample : Task :=
  { task_key := some "t1", pipeline_task := some { pipeline_id := some "pid-1" } }

/-- A task with no managed dependency. -/
def plainTaskExample : Task := { task_key := some "t2" }

/-- The stored info entry covering `pipelineTaskExample`. -/
def pipelineInfoExample : WorkflowTasksInfo :=
  { task_key := some "t1"
    referenced_task_type := some "pipeline"
    referenced_task_name := some "pl"
    referenced_task_id := some "pid-1" }

/-- The settings of a captured workflow carrying the two tasks above. -/
def twoTaskSettings : JobSettings :=
  { name := some "wf", tasks := some [pipelineTaskExample, plainTaskExample] }

/-- A captured workflow carrying the two tasks above. -/
def capturedTwoTaskWorkflow : Job := { settings := some twoTaskSettings }

/-- `capturedTwoTaskWorkflow` after redeploy against `exampleResolveEnv`. -/
def reconstructedExample : Job :=
  { settings := some
      { name := some "wf"
        tasks := some
          [{ task_key := some "t1", pipeline_task := some { pipeline_id := some "pid-2" } },
           plainTaskExample] } }

/-- A remote permissions endpoint on which every call succeeds. -/
def aclRemoteOk : AclRemote :=
  { revokeResult := fun _ => .ok ()
    grantResult := fun _ _ _ => .ok () }

/-! ## Claim theorems -/

/-- C1: for every create-or-update call (`JobManager.create_or_update_job_with_new_cluster`
and `WorkflowManager.create_or_update_workflow`): zero matches for the name
means exactly one remote create call and no update; exactly one match (with
its id) means exactly one update call reusing that id and no create; two or
more matches mean an error with neither a create nor an update performed. -/
theorem createOrUpdate_create_xor_update (existing : List (Option Nat))
    (createResp : Option Nat) (n : String) (hn : n ≠ "") (j : Nat) :
    (existing = [] →
      (createOrUpdateJob existing createResp).1 = [CUAction.create] ∧
      (createOrUpdateWorkflow (some n) existing createResp).1 = [CUAction.create]) ∧
    (existing = [some j] →
      createOrUpdateJob existing createResp = ([CUAction.update j], .ok j) ∧
      createOrUpdateWorkflow (some n) existing createResp = ([CUAction.update j], .ok j)) ∧
    (2 ≤ existing.length →
      (createOrUpdateJob existing createResp).1 = [] ∧
      isError (createOrUpdateJob existing createResp).2 = true ∧
      (createOrUpdateWorkflow (some n) existing createResp).1 = [] ∧
      isError (createOrUpdateWorkflow (some n) existing createResp).2 = true) := by
  refine ⟨?_, ?_, ?_⟩ <;> intro h
  · subst h
    simp [createOrUpdateJob, createOrUpdateWorkflow, pyTruthy, hn]
  · subst h
    simp [createOrUpdateJob, createOrUpdateWorkflow, pyTruthy, hn]
  · match existing, h with
    | a :: b :: rest, _ =>
      simp [createOrUpdateJob, createOrUpdateWorkflow, pyTruthy, hn, isError]

/-- Witness for C1 at concrete inputs: one pre-existing job with id 5 is
updated in place, by both managers. -/
theorem createOrUpdate_create_xor_update_witness :
    createOrUpdateJob [some 5] none = ([CUAction.update 5], .ok 5) ∧
    createOrUpdateWorkflow (some "wf") [some 5] none = ([CUAction.update 5], .ok 5) :=
  (createOrUpdate_create_xor_update [some 5] none "wf" (by decide) 5).2.1 rfl

/-- C2: `DatabricksMapper.map` returns one entry per subject, each carrying
that subject's own mapping outcome; in particular mapping
`{"user:a_x.com", "group:bad"}` against an account with no groups yields the
user's email and an error value (not an exception) for the group. -/
theorem databricks_mapper_per_subject (groups : List (Option String))
    (subjects : List String) :
    (dbMap groups subjects).map Prod.fst = subjects ∧
    (∀ s ∈ subjects, (s, mapSubject groups s) ∈ dbMap groups subjects) ∧
    dbMap [] ["user:a_x.com", "group:bad"] =
      [("user:a_x.com", .ok "a@x.com"), ("group:bad", .error (.groupNotFound "bad"))] := by
  refine ⟨?_, ?_, by decide⟩
  · induction subjects with
    | nil => rfl
    | cons a l ih => simpa [dbMap] using ih
  · intro s hs
    simp only [dbMap, List.mem_map]
    exact ⟨s, hs, rfl⟩

/-- Witness for C2: the failed group mapping is an entry of the result and
does not affect the user entry. -/
theorem databricks_mapper_per_subject_witness :
    ("group:bad", mapSubject [] "group:bad") ∈ dbMap [] ["user:a_x.com", "group:bad"] :=
  (databricks_mapper_per_subject [] ["user:a_x.com", "group:bad"]).2.1 "group:bad" (by simp)

/-- C5 counterexample: the reference `"https://adb-1234.5.example.net"`
quoted by the claim does **not** match `_DATABRICKS_URL_PATTERN` (the host
must be `azuredatabricks.net`), so `get_workspace_info_by_name` treats it as
a logical workspace name and performs the remote Azure lookup, contrary to
the claimed no-remote-lookup behaviour. -/
theorem workspace_url_reference_counterexample :
    matchDatabricksUrl "https://adb-1234.5.example.net" = none ∧
    (getWorkspaceInfoByName true (fun _ => none) "https://adb-1234.5.example.net").2 = true := by
  constructor
  · decide
  · decide

/-- C5 (amended): a workspace reference matching the external-URL pattern
`adb-<digits>.<digits>.azuredatabricks.net` is synthesized into an unmanaged
workspace with the reference itself as host: no remote lookup is performed,
and `provision_workspace` returns it without any remote workspace-creation
call. -/
theorem workspace_url_reference_unmanaged (azurePerms : Bool)
    (remoteLookup : String → Option DatabricksWorkspaceInfo)
    (createIfNotExists : String → Except String DatabricksWorkspaceInfo)
    (permissionsResult : Except String Unit) (ref wid : String)
    (h : matchDatabricksUrl ref = some wid) :
    getWorkspaceInfoByName azurePerms remoteLookup ref =
      (.ok (some (buildUnmanaged ref wid ref .succeeded)), false) ∧
    provisionWorkspace azurePerms remoteLookup createIfNotExists permissionsResult ref =
      (.ok (buildUnmanaged ref wid ref .succeeded), []) ∧
    (buildUnmanaged ref wid ref .succeeded).databricks_host = ref := by
  have hinfo : getWorkspaceInfoByName azurePerms remoteLookup ref =
      (.ok (some (buildUnmanaged ref wid ref .succeeded)), false) := by
    simp [getWorkspaceInfoByName, h]
  refine ⟨hinfo, ?_, rfl⟩
  simp [provisionWorkspace, hinfo, buildUnmanaged]

/-- Witness for C5 (amended) at the well-formed URL
`https://adb-1234.5.azuredatabricks.net`. -/
theorem workspace_url_reference_unmanaged_witness :
    provisionWorkspace true (fun _ => none) (fun _ => .error "unused") (.ok ())
        "https://adb-1234.5.azuredatabricks.net" =
      (.ok (buildUnmanaged "https://adb-1234.5.azuredatabricks.net" "1234"
        "https://adb-1234.5.azuredatabricks.net" .succeeded), []) :=
  (workspace_url_reference_unmanaged true (fun _ => none) (fun _ => .error "unused") (.ok ())
    "https://adb-1234.5.azuredatabricks.net" "1234" (by decide)).2.1

/-- C8 counterexample: the status operation raises for a task id that is not
a well-formed UUID string (e.g. `"abc"`): `uuid.UUID` raises `ValueError`
inside `MemoryTaskRepository.get_task` before the map lookup, and
`get_provisioning_status` does not catch it, contrary to the claimed
never-raises behaviour. -/
theorem status_unknown_id_counterexample :
    getProvisioningStatus [] "abc" =
      .error "ValueError: badly formed hexadecimal UUID string" := by decide

/-- C8 (amended): for every id string that parses as a UUID but matches no
stored task, the status operation returns the "not found" response and does
not raise. -/
theorem status_unknown_uuid_not_found (statusMap : List (Nat × ProvisioningStatus))
    (id : String) (u : Nat) (hparse : parseUUID id = some u)
    (habsent : statusMap.find? (fun e => e.1 = u) = none) :
    getProvisioningStatus statusMap id =
      .ok (.notFound ("Cannot find Provisioning Status for id '" ++ id ++ "'")) := by
  simp [getProvisioningStatus, getTask, hparse, habsent]

/-- Witness for C8 (amended): a fresh nil UUID is absent from an empty task
map and yields the "not found" response. -/
theorem status_unknown_uuid_not_found_witness :
    getProvisioningStatus [] "00000000-0000-0000-0000-000000000000" =
      .ok (.notFound
        "Cannot find Provisioning Status for id '00000000-0000-0000-0000-000000000000'") :=
  status_unknown_uuid_not_found [] "00000000-0000-0000-0000-000000000000" 0 (by decide) rfl

/-- C3 counterexample: with exactly one deployed workflow of the requested
name, normalized definitions that differ, a request equal to the default
empty skeleton and a non-empty deployed workflow, validation nonetheless
passes when the component's override flag is set — the override check
precedes the anti-clobber check — so "fails regardless of the environment"
does not hold as stated. -/
theorem drift_validation_counterexample :
    deployedWorkflow ≠ normalizeRequest emptyRequestWorkflow deployedWorkflow ∧
    normalizeRequest emptyRequestWorkflow deployedWorkflow =
      emptyWorkflowToCompare (normalizeRequest emptyRequestWorkflow deployedWorkflow) "wf"
        (deployedWorkflow.settings.bind (fun st => st.run_as)) ∧
    (validateWorkflowForProvisioning emptyRequestWorkflow true "production" "development"
      [some 1] deployedWorkflow).1 = .ok () :=
  ⟨by decide, by decide, by decide⟩

/-- C3 (amended): with exactly one deployed workflow, differing normalized
definitions, the request equal to the default empty skeleton **and the
override flag unset**, drift validation fails whatever the environment; and
whenever the normalized definitions are equal, validation passes regardless
of the override flag. -/
theorem drift_validation_policy (request existing : Job) (override : Bool)
    (environment devEnvName : String) (jid : Nat) (s : JobSettings) (w : String)
    (hset : request.settings = some s) (hname : s.name = some w) (hw : w ≠ "") :
    (override = false →
      existing ≠ normalizeRequest request existing →
      normalizeRequest request existing =
        emptyWorkflowToCompare (normalizeRequest request existing) w
          (existing.settings.bind (fun st => st.run_as)) →
      isError (validateWorkflowForProvisioning request override environment devEnvName
        [some jid] existing).1 = true) ∧
    (existing = normalizeRequest request existing →
      (validateWorkflowForProvisioning request override environment devEnvName
        [some jid] existing).1 = .ok ()) := by
  constructor
  · intro hov hne hskel
    subst hov
    simp only [validateWorkflowForProvisioning, hset, hname, if_neg hw]
    rw [if_neg hne]
    split_ifs
    all_goals try rfl
    all_goals exact (by assumption : False).elim
  · intro heq
    simp only [validateWorkflowForProvisioning, hset, hname, if_neg hw]
    rw [if_pos heq]

/-- Witness for C3 (amended): the empty-skeleton request against the
non-empty deployed workflow fails without override in a non-development
environment, and an identical (normalized) request passes with the override
flag set. -/
theorem drift_validation_policy_witness :
    isError (validateWorkflowForProvisioning emptyRequestWorkflow false "production"
      "development" [some 1] deployedWorkflow).1 = true ∧
    (validateWorkflowForProvisioning (normalizeRequest deployedWorkflow deployedWorkflow) true
      "production" "development" [some 1] deployedWorkflow).1 = .ok () :=
  ⟨(drift_validation_policy emptyRequestWorkflow deployedWorkflow false "production"
      "development" 1 emptyRequestSettings "wf" rfl rfl (by decide)).1 rfl (by decide) (by decide),
   (drift_validation_policy (normalizeRequest deployedWorkflow deployedWorkflow) deployedWorkflow
      true "production" "development" 1 _ "wf" rfl rfl (by decide)).2 (by decide)⟩

/-- C10: whenever exactly one workflow with the requested name exists (and
its listing entry carries an id), validation overwrites the request
workflow's `created_time`, `creator_user_name`, `job_id` and
`run_as_user_name` with the deployed workflow's values, and the mutated
object is what the component holds after validation returns (the second
component of the embedded state-passing result). -/
theorem drift_validation_mutates_request (request existing : Job) (override : Bool)
    (environment devEnvName : String) (jid : Nat) (s : JobSettings) (w : String)
    (hset : request.settings = some s) (hname : s.name = some w) (hw : w ≠ "") :
    (validateWorkflowForProvisioning request override environment devEnvName
        [some jid] existing).2 = normalizeRequest request existing ∧
    ((validateWorkflowForProvisioning request override environment devEnvName
        [some jid] existing).2).created_time = existing.created_time ∧
    ((validateWorkflowForProvisioning request override environment devEnvName
        [some jid] existing).2).creator_user_name = existing.creator_user_name ∧
    ((validateWorkflowForProvisioning request override environment devEnvName
        [some jid] existing).2).job_id = existing.job_id ∧
    ((validateWorkflowForProvisioning request override environment devEnvName
        [some jid] existing).2).run_as_user_name = existing.run_as_user_name := by
  have h2 : (validateWorkflowForProvisioning request override environment devEnvName
      [some jid] existing).2 = normalizeRequest request existing := by
    simp only [validateWorkflowForProvisioning, hset, hname, if_neg hw]
    split_ifs <;> rfl
  exact ⟨h2, by rw [h2]; rfl, by rw [h2]; rfl, by rw [h2]; rfl, by rw [h2]; rfl⟩

/-- Witness for C10 at the concrete request/deployed pair. -/
theorem drift_validation_mutates_request_witness :
    (validateWorkflowForProvisioning emptyRequestWorkflow false "production" "development"
        [some 1] deployedWorkflow).2 = normalizeRequest emptyRequestWorkflow deployedWorkflow :=
  (drift_validation_mutates_request emptyRequestWorkflow deployedWorkflow false "production"
    "development" 1 emptyRequestSettings "wf" rfl rfl (by decide)).1

/-- The deletion pass attempts every listed id and collects exactly the
failing deletions' causes, in order. -/
theorem attemptDeletes_spec (delJob : Nat → Except String Unit) (jobs : List (Option Nat)) :
    (attemptDeletes delJob jobs).1 = jobs.filterMap id ∧
    (attemptDeletes delJob jobs).2 = jobs.filterMap (fun j? =>
      match j? with
      | none => none
      | some j =>
        match delJob j with
        | .ok _ => none
        | .error e => some e) := by
  induction jobs with
  | nil => exact ⟨rfl, rfl⟩
  | cons j? rest ih =>
    cases j? with
    | none => simpa [attemptDeletes] using ih
    | some j =>
      cases hd : delJob j <;> simp [attemptDeletes, hd, ih.1, ih.2]

/-- C4: unprovision (both `JobWorkloadHandler` and `WorkflowWorkloadHandler`)
attempts the deletion of every listed resource even when some deletions
fail, and only after the full pass raises one error aggregating every
individual failure's cause; with no failing deletion (and no data-removal
step) no error is raised. -/
theorem bulk_unprovision_attempts_all (jobs : List (Option Nat))
    (delJob : Nat → Except String Unit) (infos : List WorkflowTasksInfo)
    (hinfos : infos ≠ []) (n : String) (hn : n ≠ "") :
    (jobUnprovisionWorkload (.ok jobs) delJob false (.ok ())).1 = jobs.filterMap id ∧
    (workflowUnprovisionWorkload infos (some n) (.ok jobs) delJob false (.ok ())).1 =
      jobs.filterMap id ∧
    (jobUnprovisionWorkload (.ok jobs) delJob false (.ok ())).2 =
      (if (jobs.filterMap (fun j? =>
          match j? with
          | none => none
          | some j =>
            match delJob j with
            | .ok _ => none
            | .error e => some e)) = [] then .ok ()
       else .error (jobs.filterMap (fun j? =>
          match j? with
          | none => none
          | some j =>
            match delJob j with
            | .ok _ => none
            | .error e => some e))) ∧
    (workflowUnprovisionWorkload infos (some n) (.ok jobs) delJob false (.ok ())).2 =
      (if (jobs.filterMap (fun j? =>
          match j? with
          | none => none
          | some j =>
            match delJob j with
            | .ok _ => none
            | .error e => some e)) = [] then .ok ()
       else .error (jobs.filterMap (fun j? =>
          match j? with
          | none => none
          | some j =>
            match delJob j with
            | .ok _ => none
            | .error e => some e))) := by
  obtain ⟨hatt, herr⟩ := attemptDeletes_spec delJob jobs
  have hpair : attemptDeletes delJob jobs =
      (jobs.filterMap id, jobs.filterMap (fun j? =>
        match j? with
        | none => none
        | some j =>
          match delJob j with
          | .ok _ => none
          | .error e => some e)) := by
    rw [← hatt, ← herr]
  have hwf : workflowUnprovisionWorkload infos (some n) (.ok jobs) delJob false (.ok ()) =
      jobUnprovisionWorkload (.ok jobs) delJob false (.ok ()) := by
    simp [workflowUnprovisionWorkload, jobUnprovisionWorkload, hinfos, pyTruthy, hn]
  have key : jobUnprovisionWorkload (.ok jobs) delJob false (.ok ()) =
      (jobs.filterMap id,
        if (jobs.filterMap (fun j? =>
          match j? with
          | none => none
          | some j =>
            match delJob j with
            | .ok _ => none
            | .error e => some e)) = [] then .ok ()
        else .error (jobs.filterMap (fun j? =>
          match j? with
          | none => none
          | some j =>
            match delJob j with
            | .ok _ => none
            | .error e => some e))) := by
    simp only [jobUnprovisionWorkload, hpair]
    split_ifs <;> rfl
  exact ⟨by rw [key], by rw [hwf, key], by rw [key], by rw [hwf, key]⟩

/-- Witness for C4: of three listed jobs (one listing entry without an id),
the two with ids are both attempted although the first fails, and the single
aggregated error carries that failure's cause. -/
theorem bulk_unprovision_attempts_all_witness :
    (workflowUnprovisionWorkload [{ task_key := some "t1" }] (some "wf")
      (.ok [some 1, none, some 2])
      (fun j => if j = 1 then .error "boom" else .ok ()) false (.ok ())) =
      ([1, 2], .error ["boom"]) := by
  have h := bulk_unprovision_attempts_all [some 1, none, some 2]
    (fun j => if j = 1 then .error "boom" else .ok ())
    [{ task_key := some "t1" }] (by decide) "wf" (by decide)
  have h1 := h.2.1
  have h2 := h.2.2.2
  simp only [List.filterMap] at h1 h2
  rw [Prod.ext_iff]
  exact ⟨by simpa using h1, by simpa using h2⟩

/-- C7 counterexample: when the component's `runAsPrincipalName` is absent,
`_provision_workflow_internal` deploys the workflow with the `run_as`
carried by the captured definition, so the run-as identity is not "always"
forced to a resolved principal. -/
theorem workflow_run_as_counterexample :
    provisionWorkflowInternalJob failingResolveEnv (fun _ => .ok none) capturedWorkflow [] none =
      .ok capturedWorkflow ∧
    capturedWorkflow.settings.bind (fun st => st.run_as) =
      some { service_principal_name := none, user_name := some "captured@example.com" } :=
  ⟨by decide, by decide⟩

/-- C7 (amended): when `runAsPrincipalName` is set (non-empty, not
whitespace) and resolves to a service principal, the deployed workflow's
`run_as` is forced to that principal's application id regardless of the
captured definition's `run_as`; when it is unset the reconstructed captured
definition is deployed unchanged (captured `run_as` included). -/
theorem workflow_run_as_forced (env : ResolveEnv)
    (spLookup : String → Except String (Option ServicePrincipal))
    (workflow updated : Job) (infos : List WorkflowTasksInfo) (nm : String)
    (sp : ServicePrincipal) (st : JobSettings)
    (hrec : reconstructJobWithCorrectIds env workflow infos = .ok updated)
    (hst : updated.settings = some st)
    (hnm : nm ≠ "") (hsp : pyIsSpace nm = false)
    (hlook : spLookup nm = .ok (some sp)) :
    provisionWorkflowInternalJob env spLookup workflow infos (some nm) =
      .ok { updated with settings := some { st with
        run_as := some { service_principal_name := sp.application_id, user_name := none } } } ∧
    provisionWorkflowInternalJob env spLookup workflow infos none = .ok updated := by
  constructor
  · simp only [provisionWorkflowInternalJob, hrec, hnm, hsp, hlook, hst]
    simp
    exact fun h => absurd h hnm
  · simp only [provisionWorkflowInternalJob, hrec]

/-- Witness for C7 (amended): a configured principal name overrides the
captured `run_as` with the resolved application id. -/
theorem workflow_run_as_forced_witness :
    provisionWorkflowInternalJob failingResolveEnv
      (fun _ => .ok (some { application_id := some "app-123" })) capturedWorkflow []
      (some "runner") = .ok forcedRunAsWorkflow :=
  (workflow_run_as_forced failingResolveEnv
    (fun _ => .ok (some { application_id := some "app-123" })) capturedWorkflow
    capturedWorkflow [] "runner" { application_id := some "app-123" }
    { name := some "wf", run_as := some { user_name := some "captured@example.com" } }
    (by decide) rfl (by decide) (by decide) rfl).1

/-- A successful task pass relates input and output tasks pointwise by
`applyInfo`. -/
theorem updateTasks_ok_forall2 (env : ResolveEnv) (infos : List WorkflowTasksInfo)
    (ts ts' : List Task) (h : updateTasks env infos ts = .ok ts') :
    List.Forall₂ (fun t t' => applyInfo env infos t = .ok t') ts ts' := by
  induction ts generalizing ts' with
  | nil =>
    cases h
    exact List.Forall₂.nil
  | cons t rest ih =>
    rw [updateTasks] at h
    cases ha : applyInfo env infos t with
    | error e => rw [ha] at h; cases h
    | ok t1 =>
      rw [ha] at h
      cases hr : updateTasks env infos rest with
      | error e => rw [hr] at h; cases h
      | ok rest' =>
        rw [hr] at h
        cases h
        exact List.Forall₂.cons ha (ih rest' hr)

/-- A task the pass returns successfully satisfies the substitution
property. -/
theorem applyInfo_ok_substituted (env : ResolveEnv) (infos : List WorkflowTasksInfo)
    (t t' : Task) (h : applyInfo env infos t = .ok t') :
    SubstitutedTask env infos t t' := by
  rw [applyInfo] at h
  constructor
  · intro hnone
    rw [hnone] at h
    cases h
    rfl
  · intro info hsome
    rw [hsome] at h
    refine ⟨?_, ?_, ?_, ?_⟩
    · intro htype nm pt newId hnm hpt hres
      by_cases hnm0 : nm = ""
      · subst hnm0
        simp [createTaskFromWorkflowTaskInfo, htype, hnm, pyTruthy] at h
      · have hcond : pyTruthy (some nm) = true := by simp [pyTruthy, hnm0]
        simp only [createTaskFromWorkflowTaskInfo, htype, hnm, hcond, if_true, hres, hpt,
          Except.ok.injEq] at h
        exact h.symm
    · intro htype nm rj newId hnm hrj hres
      by_cases hnm0 : nm = ""
      · subst hnm0
        simp [createTaskFromWorkflowTaskInfo, htype, hnm, pyTruthy] at h
      · have hcond : pyTruthy (some nm) = true := by simp [pyTruthy, hnm0]
        simp only [createTaskFromWorkflowTaskInfo, htype, hnm, hcond, if_true, hres, hrj,
          Except.ok.injEq] at h
        exact h.symm
    · intro htype nm nt newId hnm hnt hres
      by_cases hnm0 : nm = ""
      · subst hnm0
        simp [createTaskFromWorkflowTaskInfo, htype, hnm, pyTruthy] at h
      · have hcond : pyTruthy (some nm) = true := by simp [pyTruthy, hnm0]
        simp only [createTaskFromWorkflowTaskInfo, htype, hnm, hcond, if_true, hres, hnt,
          Except.ok.injEq] at h
        exact h.symm
    · intro htype nm newId hnm hres
      by_cases hnm0 : nm = ""
      · subst hnm0
        simp [createTaskFromWorkflowTaskInfo, htype, hnm, pyTruthy] at h
      · have hcond : pyTruthy (some nm) = true := by simp [pyTruthy, hnm0]
        simp only [createTaskFromWorkflowTaskInfo, htype, hnm, hcond, if_true, hres,
          Except.ok.injEq] at h
        exact h.symm

/-- C6: a successful `reconstruct_job_with_correct_ids` returns the job with
its task list rewritten pointwise: every task covered by a
`WorkflowTasksInfo` entry has the referenced entity id (pipeline, job,
warehouse or cluster, according to the entry's type) replaced by the id
freshly resolved by name in the target workspace, and every uncovered task
is returned unchanged. -/
theorem workflow_redeploy_substitutes (env : ResolveEnv) (infos : List WorkflowTasksInfo)
    (orig res : Job) (s : JobSettings) (tasks : List Task)
    (hset : orig.settings = some s) (htasks : s.tasks = some tasks) (hne : tasks ≠ [])
    (hok : reconstructJobWithCorrectIds env orig infos = .ok res) :
    ∃ tasks', res = { orig with settings := some { s with tasks := some tasks' } } ∧
      tasks'.length = tasks.length ∧
      List.Forall₂ (SubstitutedTask env infos) tasks tasks' := by
  simp only [reconstructJobWithCorrectIds, hset, htasks] at hok
  rw [if_neg hne] at hok
  cases hu : updateTasks env infos tasks with
  | error e => rw [hu] at hok; cases hok
  | ok tasks' =>
    rw [hu] at hok
    cases hok
    have hall := updateTasks_ok_forall2 env infos tasks tasks' hu
    exact ⟨tasks', rfl, (hall.length_eq).symm,
      List.Forall₂.imp (fun a b hab => applyInfo_ok_substituted env infos a b hab) hall⟩

/-- Witness for C6: a two-task workflow whose first task is covered by a
pipeline info entry (its pipeline id freshly resolved to `pid-2`) and whose
second task is uncovered. -/
theorem workflow_redeploy_substitutes_witness :
    ∃ tasks', reconstructedExample =
        { capturedTwoTaskWorkflow with
          settings := some { twoTaskSettings with tasks := some tasks' } } ∧
      tasks'.length = [pipelineTaskExample, plainTaskExample].length ∧
      List.Forall₂ (SubstitutedTask exampleResolveEnv [pipelineInfoExample])
        [pipelineTaskExample, plainTaskExample] tasks' :=
  workflow_redeploy_substitutes exampleResolveEnv [pipelineInfoExample]
    capturedTwoTaskWorkflow reconstructedExample twoTaskSettings
    [pipelineTaskExample, plainTaskExample] rfl rfl (by decide) (by decide)

/-- Full characterization of the revoke loop when every current permission
carries a principal: the attempted revokes and the collected failures are
pointwise functions of the permission list, and the loop never aborts. -/
theorem revokeLoop_spec (devMode : Bool) (oM dM : String) (desired : List String)
    (remote : AclRemote) (viewObj : Securable) (perms : List (Option String))
    (hnone : none ∉ perms) :
    revokeLoop devMode oM dM desired remote viewObj perms =
      (perms.filterMap (fun q? =>
        match q? with
        | none => none
        | some q =>
          if devMode ∧ (q = oM ∨ q = dM) then none
          else if q ∉ desired then some (AclAction.revoke q .select viewObj)
          else none),
       perms.filterMap (fun q? =>
        match q? with
        | none => none
        | some q =>
          if devMode ∧ (q = oM ∨ q = dM) then none
          else if q ∉ desired then
            match remote.revokeResult q with
            | .ok _ => none
            | .error e => some e
          else none),
       none) := by
  induction perms with
  | nil => rfl
  | cons q? rest ih =>
    cases q? with
    | none => simp at hnone
    | some q =>
      have hrest : none ∉ rest := fun hm => hnone (List.mem_cons_of_mem _ hm)
      rw [revokeLoop]
      by_cases h1 : devMode ∧ (q = oM ∨ q = dM)
      · rw [if_pos h1, ih hrest]
        simp [List.filterMap_cons, h1]
      · rw [if_neg h1]
        by_cases h2 : q ∉ desired
        · rw [if_pos h2, ih hrest]
          cases hr : remote.revokeResult q <;>
            simp [List.filterMap_cons, h1, h2, hr]
        · rw [if_neg h2, ih hrest]
          simp [List.filterMap_cons, h1, h2]

/-- Membership in the revoke trace: exactly the current principals outside
the desired set that the development-mode guard does not skip, each revoked
with SELECT on the view. -/
theorem revokeLoop_mem (devMode : Bool) (oM dM : String) (desired : List String)
    (remote : AclRemote) (viewObj : Securable) (perms : List (Option String))
    (hnone : none ∉ perms) (a : AclAction) :
    a ∈ (revokeLoop devMode oM dM desired remote viewObj perms).1 ↔
      ∃ q, some q ∈ perms ∧ ¬(devMode = true ∧ (q = oM ∨ q = dM)) ∧ q ∉ desired ∧
        a = AclAction.revoke q .select viewObj := by
  rw [revokeLoop_spec devMode oM dM desired remote viewObj perms hnone]
  simp only [List.mem_filterMap]
  constructor
  · rintro ⟨q?, hq, hf⟩
    cases q? with
    | none => cases hf
    | some q =>
      dsimp only at hf
      by_cases h1 : devMode ∧ (q = oM ∨ q = dM)
      · rw [if_pos h1] at hf; cases hf
      · rw [if_neg h1] at hf
        by_cases h2 : q ∉ desired
        · rw [if_pos h2] at hf
          cases hf
          exact ⟨q, hq, by simpa using h1, h2, rfl⟩
        · rw [if_neg h2] at hf; cases hf
  · rintro ⟨q, hq, h1, h2, rfl⟩
    refine ⟨some q, hq, ?_⟩
    dsimp only
    rw [if_neg (by simpa using h1), if_pos h2]

/-- Every call `assign_databricks_permission_to_table_or_view` attempts is a
grant for the given principal: the view privilege, USE_CATALOG on the
catalog or USE_SCHEMA on the schema. -/
theorem assignPermissionToView_acts (remote : AclRemote) (c sc v : String)
    (q : String) (priv : Privilege) (a : AclAction)
    (ha : a ∈ (assignPermissionToView remote c sc v q priv).1) :
    a = AclAction.grant q priv (.view c sc v) ∨
    a = AclAction.grant q .use_catalog (.catalog c) ∨
    a = AclAction.grant q .use_schema (.schema c sc) := by
  simp only [assignPermissionToView] at ha
  cases h1 : remote.grantResult q priv (Securable.view c sc v) with
  | error e =>
    rw [h1] at ha
    simp only [List.mem_singleton] at ha
    exact Or.inl ha
  | ok u =>
    rw [h1] at ha
    cases h2 : remote.grantResult q Privilege.use_catalog (Securable.catalog c) with
    | error e =>
      rw [h2] at ha
      simp only [List.mem_cons, List.mem_singleton, List.not_mem_nil, or_false] at ha
      rcases ha with h | h
      · exact Or.inl h
      · exact Or.inr (Or.inl h)
    | ok u2 =>
      rw [h2] at ha
      cases h3 : remote.grantResult q Privilege.use_schema (Securable.schema c sc) with
      | error e =>
        rw [h3] at ha
        simp only [List.mem_cons, List.not_mem_nil, or_false] at ha
        rcases ha with h | h | h
        · exact Or.inl h
        · exact Or.inr (Or.inl h)
        · exact Or.inr (Or.inr h)
      | ok u3 =>
        rw [h3] at ha
        simp only [List.mem_cons, List.not_mem_nil, or_false] at ha
        rcases ha with h | h | h
        · exact Or.inl h
        · exact Or.inr (Or.inl h)
        · exact Or.inr (Or.inr h)

/-- The grant loop never attempts a revoke. -/
theorem grantLoop_no_revoke (remote : AclRemote) (c sc v : String) (vals : List String)
    (p : String) (priv : Privilege) (obj : Securable) :
    AclAction.revoke p priv obj ∉ (grantLoop remote c sc v vals).1 := by
  induction vals with
  | nil => simp [grantLoop]
  | cons q rest ih =>
    rw [grantLoop]
    intro hmem
    simp only [List.mem_append] at hmem
    rcases hmem with h | h
    · rcases assignPermissionToView_acts remote c sc v q .select _ h with h' | h' | h' <;>
        cases h'
    · exact ih h

/-- When every remote grant succeeds, the grant loop attempts, for every
desired principal in order, the view privilege plus the cascading
USE_CATALOG and USE_SCHEMA grants, and collects no failure. -/
theorem grantLoop_all_ok (remote : AclRemote) (c sc v : String)
    (hok : ∀ q priv obj, remote.grantResult q priv obj = .ok ()) (vals : List String) :
    grantLoop remote c sc v vals =
      (vals.flatMap (fun q =>
        [AclAction.grant q .select (.view c sc v),
         AclAction.grant q .use_catalog (.catalog c),
         AclAction.grant q .use_schema (.schema c sc)]), []) := by
  induction vals with
  | nil => rfl
  | cons q rest ih =>
    rw [grantLoop, ih]
    simp [assignPermissionToView, hok, List.flatMap_cons]

/-- The attempted permission changes of `update_acl`: the revoke pass, and —
whenever no revoke failed — the grant pass after it. -/
theorem updateAcl_acts_shape (groups : List (Option String))
    (environment devEnvName owner devGroup : String) (identities : List String)
    (currentPerms : List (Option String)) (remote : AclRemote) (c sc v : String)
    (oM dM : String)
    (hmap : mapPrincipals groups owner devGroup = .ok (oM, dM))
    (hids : ∀ w ∈ pyDedup identities, isError (mapSubject groups w) = false)
    (hnone : none ∉ currentPerms) :
    (currentPerms.filterMap (fun q? =>
        match q? with
        | none => none
        | some q =>
          if lowerEq environment devEnvName ∧ (q = oM ∨ q = dM) then none
          else if q ∉ (pyDedup identities).filterMap
              (fun w => (mapSubject groups w).toOption) then
            match remote.revokeResult q with
            | .ok _ => none
            | .error e => some e
          else none) = [] →
      (updateAcl groups environment devEnvName owner devGroup identities currentPerms
          remote c sc v).1 =
        (revokeLoop (lowerEq environment devEnvName) oM dM
          ((pyDedup identities).filterMap (fun w => (mapSubject groups w).toOption)) remote
          (.view c sc v) currentPerms).1 ++
        (grantLoop remote c sc v
          ((pyDedup identities).filterMap (fun w => (mapSubject groups w).toOption))).1) ∧
    (currentPerms.filterMap (fun q? =>
        match q? with
        | none => none
        | some q =>
          if lowerEq environment devEnvName ∧ (q = oM ∨ q = dM) then none
          else if q ∉ (pyDedup identities).filterMap
              (fun w => (mapSubject groups w).toOption) then
            match remote.revokeResult q with
            | .ok _ => none
            | .error e => some e
          else none) ≠ [] →
      (updateAcl groups environment devEnvName owner devGroup identities currentPerms
          remote c sc v).1 =
        (revokeLoop (lowerEq environment devEnvName) oM dM
          ((pyDedup identities).filterMap (fun w => (mapSubject groups w).toOption)) remote
          (.view c sc v) currentPerms).1) := by
  have hall : (pyDedup identities).all (fun w => !isError (mapSubject groups w)) = true := by
    rw [List.all_eq_true]
    intro w hw
    rw [hids w hw]
    rfl
  have hspec := revokeLoop_spec (lowerEq environment devEnvName) oM dM
    ((pyDedup identities).filterMap (fun w => (mapSubject groups w).toOption)) remote
    (.view c sc v) currentPerms hnone
  constructor
  · intro hre
    simp only [updateAcl, hmap, hall, if_true, hspec, hre]
    rcases hgl : grantLoop remote c sc v
        ((pyDedup identities).filterMap (fun w => (mapSubject groups w).toOption))
      with ⟨gacts, gerrs⟩
    by_cases hge : gerrs = [] <;> simp [hgl, hge]
  · intro hre
    simp only [updateAcl, hmap, hall, if_true, hspec]
    rw [if_neg hre]

/-- C9: in the development environment (data product environment equal,
case-insensitively, to the configured development environment name) the
mapped owner and dev-group principals are never revoked, even when absent
from the desired set; in any other environment a current principal absent
from the desired set — the owner and dev group included — is revoked like
any other extra principal; and (when the remote calls succeed) every desired
principal is granted SELECT on the view together with USE_CATALOG on its
catalog and USE_SCHEMA on its schema. -/
theorem acl_update_policy (groups : List (Option String))
    (environment devEnvName owner devGroup : String) (identities : List String)
    (currentPerms : List (Option String)) (remote : AclRemote) (c sc v : String)
    (oM dM : String)
    (hmap : mapPrincipals groups owner devGroup = .ok (oM, dM))
    (hids : ∀ w ∈ pyDedup identities, isError (mapSubject groups w) = false)
    (hnone : none ∉ currentPerms) :
    (lowerEq environment devEnvName = true →
      ∀ p priv obj,
        AclAction.revoke p priv obj ∈ (updateAcl groups environment devEnvName owner devGroup
          identities currentPerms remote c sc v).1 → p ≠ oM ∧ p ≠ dM) ∧
    (lowerEq environment devEnvName = false →
      ∀ p, some p ∈ currentPerms →
        p ∉ (pyDedup identities).filterMap (fun w => (mapSubject groups w).toOption) →
        AclAction.revoke p .select (.view c sc v) ∈ (updateAcl groups environment devEnvName
          owner devGroup identities currentPerms remote c sc v).1) ∧
    ((∀ q, remote.revokeResult q = .ok ()) →
      (∀ q priv obj, remote.grantResult q priv obj = .ok ()) →
      ∀ val ∈ (pyDedup identities).filterMap (fun w => (mapSubject groups w).toOption),
        AclAction.grant val .select (.view c sc v) ∈ (updateAcl groups environment devEnvName
          owner devGroup identities currentPerms remote c sc v).1 ∧
        AclAction.grant val .use_catalog (.catalog c) ∈ (updateAcl groups environment devEnvName
          owner devGroup identities currentPerms remote c sc v).1 ∧
        AclAction.grant val .use_schema (.schema c sc) ∈ (updateAcl groups environment devEnvName
          owner devGroup identities currentPerms remote c sc v).1) := by
  obtain ⟨hshape1, hshape2⟩ := updateAcl_acts_shape groups environment devEnvName owner devGroup
    identities currentPerms remote c sc v oM dM hmap hids hnone
  refine ⟨?_, ?_, ?_⟩
  · intro hdev p priv obj hmem
    have hsplit : AclAction.revoke p priv obj ∈
        (revokeLoop (lowerEq environment devEnvName) oM dM
          ((pyDedup identities).filterMap (fun w => (mapSubject groups w).toOption)) remote
          (.view c sc v) currentPerms).1 := by
      by_cases hre : currentPerms.filterMap (fun q? =>
          match q? with
          | none => none
          | some q =>
            if lowerEq environment devEnvName ∧ (q = oM ∨ q = dM) then none
            else if q ∉ (pyDedup identities).filterMap
                (fun w => (mapSubject groups w).toOption) then
              match remote.revokeResult q with
              | .ok _ => none
              | .error e => some e
            else none) = []
      · rw [hshape1 hre] at hmem
        rcases List.mem_append.mp hmem with hm | hm
        · exact hm
        · exact absurd hm (grantLoop_no_revoke remote c sc v _ p priv obj)
      · rw [hshape2 hre] at hmem
        exact hmem
    obtain ⟨q, _, hnd, _, heq⟩ :=
      (revokeLoop_mem _ _ _ _ _ _ _ hnone _).mp hsplit
    injection heq with h1 h2 h3
    subst h1
    have hq : ¬(p = oM ∨ p = dM) := fun hor => hnd ⟨hdev, hor⟩
    exact ⟨fun h => hq (Or.inl h), fun h => hq (Or.inr h)⟩
  · intro hdev p hp hnot
    have hmem : AclAction.revoke p .select (.view c sc v) ∈
        (revokeLoop (lowerEq environment devEnvName) oM dM
          ((pyDedup identities).filterMap (fun w => (mapSubject groups w).toOption)) remote
          (.view c sc v) currentPerms).1 :=
      (revokeLoop_mem _ _ _ _ _ _ _ hnone _).mpr
        ⟨p, hp, by simp [hdev], hnot, rfl⟩
    by_cases hre : currentPerms.filterMap (fun q? =>
        match q? with
        | none => none
        | some q =>
          if lowerEq environment devEnvName ∧ (q = oM ∨ q = dM) then none
          else if q ∉ (pyDedup identities).filterMap
              (fun w => (mapSubject groups w).toOption) then
            match remote.revokeResult q with
            | .ok _ => none
            | .error e => some e
          else none) = []
    · rw [hshape1 hre]
      exact List.mem_append.mpr (Or.inl hmem)
    · rw [hshape2 hre]
      exact hmem
  · intro hrok hgok val hval
    have hre : currentPerms.filterMap (fun q? =>
        match q? with
        | none => none
        | some q =>
          if lowerEq environment devEnvName ∧ (q = oM ∨ q = dM) then none
          else if q ∉ (pyDedup identities).filterMap
              (fun w => (mapSubject groups w).toOption) then
            match remote.revokeResult q with
            | .ok _ => none
            | .error e => some e
          else none) = [] := by
      rw [List.filterMap_eq_nil_iff]
      intro q? _
      cases q? with
      | none => rfl
      | some q =>
        dsimp only
        split_ifs with h1 h2
        · rfl
        · rfl
        · rw [hrok q]
    rw [hshape1 hre]
    have hg := grantLoop_all_ok remote c sc v hgok
      ((pyDedup identities).filterMap (fun w => (mapSubject groups w).toOption))
    have hmemg : ∀ act ∈ [AclAction.grant val .select (.view c sc v),
        AclAction.grant val .use_catalog (.catalog c),
        AclAction.grant val .use_schema (.schema c sc)],
        act ∈ (grantLoop remote c sc v
          ((pyDedup identities).filterMap (fun w => (mapSubject groups w).toOption))).1 := by
      intro act hact
      rw [hg]
      exact List.mem_flatMap.mpr ⟨val, hval, hact⟩
    refine ⟨?_, ?_, ?_⟩ <;>
      exact List.mem_append.mpr (Or.inr (hmemg _ (by simp)))

/-- Witness for C9 in a non-development environment: the mapped owner,
currently granted but absent from the desired set, is revoked. -/
theorem acl_update_policy_witness :
    AclAction.revoke "o@corp.com" .select (.view "cat" "sch" "vw") ∈
      (updateAcl [some "DevTeam"] "production" "development" "user:o_corp.com" "devteam"
        ["user:a_x.com"] [some "o@corp.com", some "stale@y.com"] aclRemoteOk
        "cat" "sch" "vw").1 :=
  (acl_update_policy [some "DevTeam"] "production" "development" "user:o_corp.com" "devteam"
    ["user:a_x.com"] [some "o@corp.com", some "stale@y.com"] aclRemoteOk "cat" "sch" "vw"
    "o@corp.com" "DevTeam" (by decide) (by decide) (by decide)).2.1
    (by decide) "o@corp.com" (by decide) (by decide)

end DatabricksAdapter
